import Mathlib

/-!
Shallow embedding of the viewport/scroll engine and refresh scheduler of
`follow.py` (a watch-like terminal pager).  Offsets, extents and display
sizes are Python integers, modelled as `Int`; timestamps and intervals are
Python floats used as exact quantities, modelled as `ℚ`.
-/

namespace Follow

/-- Vertical offset update, one iteration of the main loop
(`follow.py` lines 124-131).  `v_end` is the pin-to-end flag; `v_diff` and
`past` are the pending scroll intent (delta and unbounded-mode tag),
reset every iteration and then set by the key handler. -/
def applyV (v_end : Bool) (v_diff : Int) (past : Bool)
    (res_max_height display_height v_offset : Int) : Int :=
  if v_end = true then
    max (res_max_height - display_height) 0
  else if v_diff ≠ 0 ∧ past = true then
    v_offset + v_diff
  else if v_diff > 0 then
    max v_offset (min (v_offset + v_diff) (max (res_max_height - display_height) 0))
  else if v_diff < 0 then
    min v_offset (max (v_offset + v_diff) 0)
  else
    v_offset

/-- Horizontal offset update, one iteration of the main loop
(`follow.py` lines 133-138); same as the vertical one but with no pin flag. -/
def applyH (h_diff : Int) (past : Bool)
    (res_max_width display_width h_offset : Int) : Int :=
  if h_diff ≠ 0 ∧ past = true then
    h_offset + h_diff
  else if h_diff > 0 then
    max h_offset (min (h_offset + h_diff) (max (res_max_width - display_width) 0))
  else if h_diff < 0 then
    min h_offset (max (h_offset + h_diff) 0)
  else
    h_offset

/-- Value of Python's `sys.maxsize` on a 64-bit platform, used by the
'G' ("jump to end") key handler as an effectively infinite delta. -/
def sysMaxsize : Int := 2 ^ 63 - 1

/-- Code point of a character, Python's `ord`. -/
def ord (c : Char) : Int := c.toNat

/-- Code returned by `getch` for the left arrow (ncurses `KEY_LEFT`). -/
def KEY_LEFT : Int := 260

/-- Code returned by `getch` for the right arrow (ncurses `KEY_RIGHT`). -/
def KEY_RIGHT : Int := 261

/-- Code returned by `getch` for the up arrow (ncurses `KEY_UP`). -/
def KEY_UP : Int := 259

/-- Code returned by `getch` for the down arrow (ncurses `KEY_DOWN`). -/
def KEY_DOWN : Int := 258

/-- Outcome of handling one polled key: the loop variables the handler may
write (`follow.py` lines 188-222).  `quit` models the `KeyboardInterrupt`
raised by 'q'. -/
structure KeyResult where
  refresh : Nat
  v_diff : Int
  h_diff : Int
  past : Bool
  v_offset : Int
  v_end : Bool
  quit : Bool
  deriving DecidableEq

/-- Key dispatch of the main loop (`follow.py` lines 188-222).  It runs
right after the per-iteration reset `v_diff = 0; h_diff = 0; past = False`
(lines 180-182), and `refresh` is `0` at that point; `c = -1` is the
timeout sentinel returned by `getch`.  Python's `-display_height // 2`
parses as `(-display_height) // 2`, floor division, hence `Int.fdiv`. -/
def handle_key (c : Int) (display_height v_offset : Int) (v_end : Bool) : KeyResult :=
  let base : KeyResult :=
    { refresh := 0, v_diff := 0, h_diff := 0, past := false,
      v_offset := v_offset, v_end := v_end, quit := false }
  if c = -1 then { base with refresh := 1 }
  else if c = ord 'r' ∨ c = ord 'R' then { base with refresh := 2 }
  else if c = ord 'q' then { base with quit := true }
  else if c = KEY_LEFT then { base with h_diff := -1 }
  else if c = KEY_RIGHT then { base with h_diff := 1 }
  else if c = KEY_UP ∨ c = ord 'k' ∨ c = ord 'y' then { base with v_diff := -1 }
  else if c = KEY_DOWN ∨ c = ord 'e' ∨ c = ord 'j' then { base with v_diff := 1 }
  else if c = ord 'E' ∨ c = ord 'J' then { base with v_diff := 1, past := true }
  else if c = ord 'K' ∨ c = ord 'Y' then { base with v_diff := -1, past := true }
  else if c = ord 'b' then { base with v_diff := -display_height }
  else if c = ord ' ' ∨ c = ord 'f' then { base with v_diff := display_height }
  else if c = ord 'd' then { base with v_diff := Int.fdiv display_height 2 }
  else if c = ord 'u' then { base with v_diff := Int.fdiv (-display_height) 2 }
  else if c = ord 'g' then { base with v_offset := 0 }
  else if c = ord 'G' then { base with v_offset := 0, v_diff := sysMaxsize }
  else if c = ord 'F' then { base with v_end := !v_end }
  else base

/-- Update of `last_time` at the start of a refreshing iteration
(`follow.py` lines 73-78): a forced refresh (`refresh > 1`, i.e. startup
or the 'r'/'R' key) re-reads the clock, a timer refresh (`refresh = 1`)
advances the previous target time by one interval. -/
def update_last_time (refresh : Nat) (now last interval : ℚ) : ℚ :=
  if refresh > 1 then now else last + interval

/-- Initial value of the `refresh` flag at program start
(`follow.py` line 59), which forces the first refresh. -/
def refresh_init : Nat := 2

/-- Value of `last_time` after a run of consecutive timer-driven refreshes
(`refresh = 1`), one per element of `nows`; each list element is the clock
value current at that iteration. -/
def run_timer_refreshes (last interval : ℚ) (nows : List ℚ) : ℚ :=
  nows.foldl (fun t now => update_last_time 1 now t interval) last

/-- Python's `str.split("\n")` on the decoded command output
(`follow.py` line 90): rows between newline separators, one more row than
there are newline characters, so never empty. -/
def splitLines : List Char → List (List Char)
  | [] => [[]]
  | c :: cs =>
    if c = '\n' then [] :: splitLines cs
    else
      match splitLines cs with
      | [] => [[c]]
      | r :: rs => (c :: r) :: rs

/-- Content height: `res_max_height = len(res_lines)` (`follow.py` line 93). -/
def res_max_height_of (lines : List (List Char)) : Nat := lines.length

/-- Content width: `res_max_width = max(len(line) for line in res_lines)`
(`follow.py` line 94).  Python's `max` needs a non-empty sequence; the fold
with base 0 agrees with it on every non-empty list of lengths. -/
def res_max_width_of (lines : List (List Char)) : Nat :=
  lines.foldl (fun a l => max a l.length) 0

/-- Python index adjustment for slicing: negative indices count from the
end, then the index is clamped to `[0, n]`. -/
def pyIndex (n : Nat) (i : Int) : Nat :=
  if i < 0 then (i + n).toNat else min i.toNat n

/-- Python slice `l[a:b]`. -/
def pySlice {α : Type} (l : List α) (a b : Int) : List α :=
  (l.take (pyIndex l.length b)).drop (pyIndex l.length a)

/-- One clipped draw call `addstr(row, col, text)`. -/
structure DrawOp where
  row : Int
  col : Int
  text : List Char
  deriving DecidableEq

/-- Body of the row-rendering loop for one row (`follow.py` lines 155-163):
a row no longer than `h_offset` is skipped, otherwise the column range
`[h_start, min(len(line), h_offset + display_width))` is drawn at screen
row `v_disp_off + num + title_height`, column `h_disp_off`. -/
def render_row (h_offset display_width h_start h_disp_off v_disp_off title_height : Int)
    (num : Nat) (line : List Char) : Option DrawOp :=
  if (line.length : Int) ≤ h_offset then none
  else
    some { row := v_disp_off + num + title_height, col := h_disp_off,
           text := pySlice line h_start (min (line.length : Int) (h_offset + display_width)) }

/-- Rendering of the visible rectangle (`follow.py` lines 140-163): under
the visibility guard, screen offsets and content start indices are chosen
by the sign of each scroll offset, and the rows
`res_lines[v_start : v_offset + display_height]` are drawn via
`render_row`; outside the guard nothing is drawn. -/
def render (res_lines : List (List Char)) (res_max_height res_max_width : Int)
    (v_offset h_offset display_height display_width title_height : Int) : List DrawOp :=
  if v_offset > -display_height ∧ v_offset < res_max_height ∧
      h_offset > -display_width ∧ h_offset < res_max_width then
    let v_disp_off := if v_offset < 0 then -v_offset else 0
    let v_start := if v_offset < 0 then 0 else v_offset
    let h_disp_off := if h_offset < 0 then -h_offset else 0
    let h_start := if h_offset < 0 then 0 else h_offset
    (pySlice res_lines v_start (v_offset + display_height)).enum.filterMap
      (fun p => render_row h_offset display_width h_start h_disp_off v_disp_off title_height
        p.1 p.2)
  else []

/-- Helper: with the pin flag off and the unbounded tag off, the vertical
update is the pure clamped-move formula. -/
lemma applyV_clamped (d ext disp off : Int) :
    applyV false d false ext disp off =
      if d > 0 then max off (min (off + d) (max (ext - disp) 0))
      else if d < 0 then min off (max (off + d) 0)
      else off := by
  simp [applyV]

/-- Helper: with the unbounded tag off, the horizontal update is the pure
clamped-move formula. -/
lemma applyH_clamped (d ext disp off : Int) :
    applyH d false ext disp off =
      if d > 0 then max off (min (off + d) (max (ext - disp) 0))
      else if d < 0 then min off (max (off + d) 0)
      else off := by
  simp [applyH]

/-- C1: a clamped move on either axis follows the stated formulas: for
`delta > 0` the new offset is `max(offset, min(offset + delta,
max(extent - display, 0)))`, for `delta < 0` it is
`min(offset, max(offset + delta, 0))`; a positive clamped move never pulls
an offset backward (in particular an offset already beyond the bound stays
put), and a clamped move starting inside `[0, max(extent - display, 0)]`
ends inside that range. -/
theorem clamped_move_spec (d ext disp off : Int) :
    (0 < d →
      applyV false d false ext disp off
          = max off (min (off + d) (max (ext - disp) 0)) ∧
      applyH d false ext disp off
          = max off (min (off + d) (max (ext - disp) 0)) ∧
      off ≤ applyV false d false ext disp off ∧
      off ≤ applyH d false ext disp off ∧
      (max (ext - disp) 0 ≤ off →
        applyV false d false ext disp off = off ∧
        applyH d false ext disp off = off)) ∧
    (d < 0 →
      applyV false d false ext disp off = min off (max (off + d) 0) ∧
      applyH d false ext disp off = min off (max (off + d) 0)) ∧
    (0 ≤ off → off ≤ max (ext - disp) 0 →
      0 ≤ applyV false d false ext disp off ∧
      applyV false d false ext disp off ≤ max (ext - disp) 0 ∧
      0 ≤ applyH d false ext disp off ∧
      applyH d false ext disp off ≤ max (ext - disp) 0) := by
  simp only [applyV_clamped, applyH_clamped]
  split_ifs <;> omega

/-- Witness for C1 at the spec's own scenario: content height 5, display
height 3, clamped `+10` from 0 and clamped `-1` from 2. -/
theorem clamped_move_spec_witness :
    applyV false 10 false 5 3 0 = max 0 (min (0 + 10) (max (5 - 3) 0)) ∧
    applyV false (-1) false 5 3 2 = min 2 (max (2 + -1) 0) :=
  ⟨((clamped_move_spec 10 5 3 0).1 (by decide)).1,
   ((clamped_move_spec (-1) 5 3 2).2.1 (by decide)).1⟩

/-- C2: an unbounded move with nonzero delta on either axis adds the delta
to the offset exactly, for every starting offset, with no clamping. -/
theorem unbounded_move_spec (d ext disp off : Int) (hd : d ≠ 0) :
    applyV false d true ext disp off = off + d ∧
    applyH d true ext disp off = off + d := by
  simp [applyV, applyH, hd]

/-- Witness for C2 with a negative offset and an offset beyond the extent. -/
theorem unbounded_move_spec_witness :
    applyV false (-1) true 5 3 (-4) = -4 + -1 ∧
    applyH 7 true 5 3 9 = 9 + 7 :=
  ⟨(unbounded_move_spec (-1) 5 3 (-4) (by decide)).1,
   (unbounded_move_spec 7 5 3 9 (by decide)).2⟩

/-- C3: whenever the pin-to-end flag is set, the vertical update yields
exactly `max(content_height - display_height, 0)`, ignoring the pending
intent (any delta, any mode, any prior offset); the 'F' key toggles that
flag. -/
theorem pinned_forces_end (d : Int) (p : Bool) (h dh off vo : Int) (ve : Bool) :
    applyV true d p h dh off = max (h - dh) 0 ∧
    (handle_key (ord 'F') dh vo ve).v_end = !ve := by
  exact ⟨by simp [applyV], rfl⟩

/-- C4: across any run of consecutive timer-driven refreshes (`getch`
returning the timeout sentinel sets `refresh = 1`), `last_time` advances by
exactly one interval per refresh, so after `N` of them it equals its
initial value plus `N` times the interval, independent of the clock values
observed (the per-iteration latencies), as long as each latency is below
the interval. -/
theorem drift_correction (last interval : ℚ) (lats : List ℚ) (dh vo : Int) (ve : Bool)
    (hlat : ∀ l ∈ lats, l < interval) :
    (handle_key (-1) dh vo ve).refresh = 1 ∧
    run_timer_refreshes last interval lats = last + lats.length * interval := by
  refine ⟨rfl, ?_⟩
  induction lats generalizing last with
  | nil => simp [run_timer_refreshes]
  | cons l ls ih =>
    have h1 : run_timer_refreshes last interval (l :: ls)
        = run_timer_refreshes (update_last_time 1 l last interval) interval ls := rfl
    rw [h1, ih (update_last_time 1 l last interval)
      (fun x hx => hlat x (List.mem_cons_of_mem _ hx))]
    simp only [update_last_time, List.length_cons]
    push_cast
    ring

/-- Witness for C4: three timer refreshes with latencies 0, 1/2, 1/4
against interval 1, starting from `last_time = 0`. -/
theorem drift_correction_witness :
    (handle_key (-1) 3 0 false).refresh = 1 ∧
    run_timer_refreshes 0 1 [0, 1/2, 1/4]
      = 0 + (([0, 1/2, 1/4] : List ℚ).length : ℚ) * 1 :=
  drift_correction 0 1 [0, 1/2, 1/4] 3 0 false
    (by intro l hl; fin_cases hl <;> norm_num)

/-- C5 counterexample: the down-arrow key produces a CLAMPED intent
(`past` stays false), so applying it from `v_offset = 5` with content
height 3 and display height 2 leaves the offset at 5 instead of moving it
by exactly `+1` to 6 as the claim requires. -/
theorem arrow_key_unbounded_counterexample :
    (handle_key KEY_DOWN 2 5 false).v_diff = 1 ∧
    (handle_key KEY_DOWN 2 5 false).past = false ∧
    applyV false (handle_key KEY_DOWN 2 5 false).v_diff
      (handle_key KEY_DOWN 2 5 false).past 3 2 5 = 5 ∧
    (5 : Int) ≠ 5 + 1 := by
  decide

/-- C5 amended: the arrow keys produce `±1` intents on the corresponding
axis with the CLAMPED mode (`past = false`), so applying them goes through
the clamp formula; it is the 'E'/'J' and 'K'/'Y' keys that produce `±1`
vertical intents with the unbounded mode, whose application changes the
offset by exactly `±1` with no clamping for every starting offset and
extent. -/
theorem arrow_and_past_keys_spec (dh vo ext disp off : Int) (ve : Bool) :
    ((handle_key KEY_UP dh vo ve).v_diff = -1 ∧
      (handle_key KEY_UP dh vo ve).past = false ∧
      (handle_key KEY_UP dh vo ve).h_diff = 0) ∧
    ((handle_key KEY_DOWN dh vo ve).v_diff = 1 ∧
      (handle_key KEY_DOWN dh vo ve).past = false ∧
      (handle_key KEY_DOWN dh vo ve).h_diff = 0) ∧
    ((handle_key KEY_LEFT dh vo ve).h_diff = -1 ∧
      (handle_key KEY_LEFT dh vo ve).past = false ∧
      (handle_key KEY_LEFT dh vo ve).v_diff = 0) ∧
    ((handle_key KEY_RIGHT dh vo ve).h_diff = 1 ∧
      (handle_key KEY_RIGHT dh vo ve).past = false ∧
      (handle_key KEY_RIGHT dh vo ve).v_diff = 0) ∧
    ((handle_key (ord 'E') dh vo ve).v_diff = 1 ∧
      (handle_key (ord 'E') dh vo ve).past = true) ∧
    ((handle_key (ord 'K') dh vo ve).v_diff = -1 ∧
      (handle_key (ord 'K') dh vo ve).past = true) ∧
    applyV false 1 false ext disp off
      = max off (min (off + 1) (max (ext - disp) 0)) ∧
    applyV false (-1) false ext disp off = min off (max (off - 1) 0) ∧
    applyV false 1 true ext disp off = off + 1 ∧
    applyV false (-1) true ext disp off = off - 1 ∧
    applyH 1 true ext disp off = off + 1 ∧
    applyH (-1) true ext disp off = off - 1 := by
  refine ⟨⟨rfl, rfl, rfl⟩, ⟨rfl, rfl, rfl⟩, ⟨rfl, rfl, rfl⟩, ⟨rfl, rfl, rfl⟩,
    ⟨rfl, rfl⟩, ⟨rfl, rfl⟩, ?_, ?_, ?_, ?_, ?_, ?_⟩ <;>
    simp [applyV, applyH] <;> omega

/-- C6 counterexample: pressing 'G' first resets `v_offset` to 0 and only
then performs the clamped jump, so from `v_offset = 5` with content height
3 and display height 2 it yields 1, while the clamped formula applied to
the CURRENT offset 5 would keep 5 (both via the formula and via the code's
own clamped branch): the claimed equivalence fails. -/
theorem jump_to_end_counterexample :
    (handle_key (ord 'G') 2 5 false).v_offset = 0 ∧
    applyV (handle_key (ord 'G') 2 5 false).v_end
      (handle_key (ord 'G') 2 5 false).v_diff
      (handle_key (ord 'G') 2 5 false).past 3 2
      (handle_key (ord 'G') 2 5 false).v_offset = 1 ∧
    max (5 : Int) (min (5 + sysMaxsize) (max (3 - 2) 0)) = 5 ∧
    applyV false sysMaxsize false 3 2 5 = 5 ∧
    (1 : Int) ≠ 5 := by
  decide

/-- C6 amended: the 'G' key resets `v_offset` to 0 and then performs a
clamped move with delta `sys.maxsize` from 0, yielding
`max(content_height - display_height, 0)` whenever that bound is at most
`sys.maxsize`; this agrees with the clamped formula applied to the current
offset when that offset already lies in `[0, bound]`, but not when it sits
beyond the bound. -/
theorem jump_to_end_amended (h dh vo off : Int)
    (hb : max (h - dh) 0 ≤ sysMaxsize) :
    applyV (handle_key (ord 'G') dh vo false).v_end
        (handle_key (ord 'G') dh vo false).v_diff
        (handle_key (ord 'G') dh vo false).past h dh
        (handle_key (ord 'G') dh vo false).v_offset = max (h - dh) 0 ∧
    (0 ≤ off → off ≤ max (h - dh) 0 →
      applyV false sysMaxsize false h dh off = max (h - dh) 0) := by
  have hm : (0 : Int) < sysMaxsize := by decide
  have h1 : (handle_key (ord 'G') dh vo false).v_end = false := rfl
  have h2 : (handle_key (ord 'G') dh vo false).v_diff = sysMaxsize := rfl
  have h3 : (handle_key (ord 'G') dh vo false).past = false := rfl
  have h4 : (handle_key (ord 'G') dh vo false).v_offset = 0 := rfl
  rw [h1, h2, h3, h4]
  rw [applyV_clamped, if_pos hm]
  refine ⟨by omega, fun h0 hle => ?_⟩
  rw [applyV_clamped, if_pos hm]
  omega

/-- Witness for C6 amended: content height 5, display height 3, prior
offset 1. -/
theorem jump_to_end_amended_witness :
    applyV (handle_key (ord 'G') 3 7 false).v_end
        (handle_key (ord 'G') 3 7 false).v_diff
        (handle_key (ord 'G') 3 7 false).past 5 3
        (handle_key (ord 'G') 3 7 false).v_offset = max (5 - 3) 0 ∧
    applyV false sysMaxsize false 5 3 1 = max (5 - 3) 0 :=
  ⟨(jump_to_end_amended 5 3 7 1 (by decide)).1,
   (jump_to_end_amended 5 3 7 1 (by decide)).2 (by decide) (by decide)⟩

/-- C7 counterexample: with content height 2, display height 5 and
`v_offset = 0`, the UNBOUNDED intent with delta `+1` moves the offset to 1,
not 0, so "any vertical scroll intent leaves `v_offset = 0`" fails. -/
theorem fits_content_counterexample :
    applyV false 1 true 2 5 0 = 1 ∧ (1 : Int) ≠ 0 := by
  decide

/-- C7 amended: when the content fits (content height at most display
height) and `v_offset = 0`, every CLAMPED vertical intent (any delta),
every zero-delta intent of either mode, and the pin all leave
`v_offset = 0`; only a nonzero unbounded intent moves it, by exactly its
delta. -/
theorem fits_content_amended (h dh d : Int) (p : Bool) (hfit : h ≤ dh) :
    applyV false d false h dh 0 = 0 ∧
    applyV true d p h dh 0 = 0 ∧
    applyV false 0 p h dh 0 = 0 ∧
    (d ≠ 0 → applyV false d true h dh 0 = d) := by
  refine ⟨?_, ?_, ?_, fun hd => ?_⟩
  · rw [applyV_clamped]; split_ifs <;> omega
  · simp [applyV]; omega
  · simp [applyV]
  · simp [applyV, hd]

/-- Witness for C7 amended: content height 2, display height 5, with a
clamped `+3`, the pin, a zero delta, and an unbounded `+3`. -/
theorem fits_content_amended_witness :
    applyV false 3 false 2 5 0 = 0 ∧
    applyV true 3 true 2 5 0 = 0 ∧
    applyV false 0 true 2 5 0 = 0 ∧
    applyV false 3 true 2 5 0 = 3 :=
  ⟨(fits_content_amended 2 5 3 true (by decide)).1,
   (fits_content_amended 2 5 3 true (by decide)).2.1,
   (fits_content_amended 2 5 3 true (by decide)).2.2.1,
   (fits_content_amended 2 5 3 true (by decide)).2.2.2 (by decide)⟩

/-- Helper: an element of a Python slice of a list is an element of the
list. -/
lemma mem_of_mem_pySlice {α : Type} {l : List α} {a b : Int} {x : α}
    (hx : x ∈ pySlice l a b) : x ∈ l :=
  List.mem_of_mem_take (List.mem_of_mem_drop hx)

/-- C8: a row whose length is at most `h_offset` is skipped by the
row-rendering loop (zero characters drawn, no failure); if every row is
that short the whole render emits nothing; and whenever a row is drawn,
the column slice bounds satisfy `h_start ≤ h_end` under the visibility
guard (`display_width ≥ 0` and `h_offset > -display_width`), for every
`h_offset`, negative ones included, and every row length. -/
theorem render_skip_and_slice_safe (res_lines : List (List Char))
    (rh rw vo ho dh dw th hs hdo vdo : Int) (num : Nat) (line : List Char)
    (hdw : 0 ≤ dw) (hguard : -dw < ho) :
    ((line.length : Int) ≤ ho →
      render_row ho dw hs hdo vdo th num line = none) ∧
    ((∀ l ∈ res_lines, (l.length : Int) ≤ ho) →
      render res_lines rh rw vo ho dh dw th = []) ∧
    (ho < (line.length : Int) →
      (if ho < 0 then (0 : Int) else ho) ≤ min (line.length : Int) (ho + dw)) := by
  refine ⟨fun hlen => ?_, fun hall => ?_, fun hlen => ?_⟩
  · simp [render_row, hlen]
  · unfold render
    split_ifs <;>
      first
        | rfl
        | (show List.filterMap _ _ = ([] : List DrawOp)
           refine List.filterMap_eq_nil_iff.mpr fun p hp => ?_
           have hline : p.2 ∈ res_lines :=
             mem_of_mem_pySlice (List.getElem?_mem (List.mem_enum_iff_getElem?.mp hp))
           simp [render_row, hall _ hline])
  · split_ifs <;> omega

/-- Witness for C8: `h_offset = 10`, a single row of length 4, display
width 3. -/
theorem render_skip_and_slice_safe_witness :
    render_row 10 3 10 0 0 1 0 ['a', 'b', 'c', 'd'] = none ∧
    render [['a', 'b', 'c', 'd']] 1 4 0 10 5 3 1 = [] :=
  ⟨(render_skip_and_slice_safe [['a', 'b', 'c', 'd']] 1 4 0 10 5 3 1 10 0 0 0
      ['a', 'b', 'c', 'd'] (by decide) (by decide)).1 (by decide),
   (render_skip_and_slice_safe [['a', 'b', 'c', 'd']] 1 4 0 10 5 3 1 10 0 0 0
      ['a', 'b', 'c', 'd'] (by decide) (by decide)).2.1 (by decide)⟩

/-- Helper: Python's `split` never yields an empty list of rows. -/
lemma splitLines_ne_nil (s : List Char) : splitLines s ≠ [] := by
  cases s with
  | nil => simp [splitLines]
  | cons c cs =>
    simp only [splitLines]
    split
    · simp
    · split <;> simp

/-- C9: splitting any decoded output yields at least one row, so the
content height is always at least 1 and the max-width fold ranges over a
non-empty sequence; empty output yields exactly one row, of width 0. -/
theorem empty_output_spec :
    (∀ s : List Char, splitLines s ≠ [] ∧
      1 ≤ res_max_height_of (splitLines s)) ∧
    splitLines [] = [[]] ∧
    res_max_height_of (splitLines ([] : List Char)) = 1 ∧
    res_max_width_of (splitLines ([] : List Char)) = 0 := by
  refine ⟨fun s => ⟨splitLines_ne_nil s, ?_⟩, rfl, rfl, rfl⟩
  exact List.length_pos.mpr (splitLines_ne_nil s)

/-- C10: a forced refresh (`refresh = 2`: the startup value, or the one
set by the 'r'/'R' keys) sets `last_time` to the current clock value,
re-anchoring the refresh grid to "now", whereas a timer refresh
(`refresh = 1`) advances it by one interval from its previous value. -/
theorem forced_refresh_reanchors (now last interval : ℚ) (dh vo : Int) (ve : Bool) :
    update_last_time (handle_key (ord 'r') dh vo ve).refresh now last interval = now ∧
    update_last_time (handle_key (ord 'R') dh vo ve).refresh now last interval = now ∧
    update_last_time refresh_init now last interval = now ∧
    update_last_time (handle_key (-1) dh vo ve).refresh now last interval
      = last + interval :=
  ⟨rfl, rfl, rfl, rfl⟩

end Follow
